import Mathlib

/-
Formal model of the aquahome-backend rental-lifecycle orchestrator.

The Go controllers (order_controller.go, payment_controller.go,
subscription_controller.go, service_controller.go) are embedded as pure
functions over an explicit application state.  Every controller runs its
writes inside one GORM transaction that either commits or rolls back
wholly; this is modelled by returning `Except ApiErr AppState`: an `ok`
result is the committed state, an `error` result leaves the caller's
state untouched (rollback).

Representation choices:
- `uint` ids are `Nat`; monetary `float64` fields are `Int` (the claims
  only copy amounts and take one exact sum, never exercising float
  rounding or fractional values);
- `time.Time` values are modelled as seconds since the Unix epoch
  (`Int`), computed from a civil `DateTime` input via the standard
  Gregorian days-from-civil formula; Go's `Time.AddDate(0, n, 0)`
  normalisation (month overflow rolls the year, day overflow rolls into
  the next month) is embedded in `addMonths`;
- request-context values (`role`, `userID`) resolved by the auth
  middleware are passed as plain arguments;
- the Razorpay HMAC-SHA256 helper from crypto/hmac is abstracted as a
  function parameter `hmac : String → String → String` (secret, data).
-/

namespace AquaHome

/-! ## Calendar arithmetic (time.Time, AddDate) -/

/-- A civil timestamp: year, month (1-12), day (1-31), seconds in day. -/
structure DateTime where
  year : Int
  month : Nat
  day : Nat
  sec : Nat
deriving Repr, DecidableEq

/-- Days since 1970-01-01 for a civil date (Gregorian calendar,
    valid for year ≥ 0, matching Go's time package). -/
def daysFromCivil (y : Int) (m d : Nat) : Int :=
  let y0 : Int := if m ≤ 2 then y - 1 else y
  let era : Int := y0 / 400
  let yoe : Int := y0 - era * 400
  let mp : Int := if m > 2 then (m : Int) - 3 else (m : Int) + 9
  let doy : Int := (153 * mp + 2) / 5 + (d : Int) - 1
  let doe : Int := yoe * 365 + yoe / 4 - yoe / 100 + doy
  era * 146097 + doe - 719468

/-- Unix seconds of a civil timestamp. -/
def toEpoch (t : DateTime) : Int :=
  daysFromCivil t.year t.month t.day * 86400 + t.sec

/-- Unix seconds of Go's `t.AddDate(0, n, 0)`: the month is advanced
    with year carry, and a day past the end of the shorter month rolls
    into the following month (Go normalises `Date(y, m, d)` as the
    first of the month plus `d - 1` days). -/
def addMonths (n : Nat) (t : DateTime) : Int :=
  let total : Nat := (t.month - 1) + n
  let y2 : Int := t.year + (total / 12 : Nat)
  let m2 : Nat := total % 12 + 1
  (daysFromCivil y2 m2 1 + ((t.day : Int) - 1)) * 86400 + t.sec

/-- The zero `time.Time{}` (January 1, year 1) as Unix seconds. -/
def goZeroTime : Int := toEpoch ⟨1, 1, 1, 0⟩

def pad2 (n : Nat) : String := if n < 10 then "0" ++ toString n else toString n

def pad4 (n : Nat) : String :=
  if n < 10 then "000" ++ toString n
  else if n < 100 then "00" ++ toString n
  else if n < 1000 then "0" ++ toString n
  else toString n

/-- Go time format "20060102" (YYYYMMDD). -/
def dateStamp (t : DateTime) : String :=
  pad4 t.year.toNat ++ pad2 t.month ++ pad2 t.day

/-- RFC3339 rendering of a timestamp (used only inside notification
    message strings, which echo the request's date field). -/
def rfc3339 (t : DateTime) : String :=
  pad4 t.year.toNat ++ "-" ++ pad2 t.month ++ "-" ++ pad2 t.day ++ "T" ++
    pad2 (t.sec / 3600) ++ ":" ++ pad2 (t.sec % 3600 / 60) ++ ":" ++ pad2 (t.sec % 60) ++ "Z"

/-! ## Status and role constants (database/models.go) -/

def OrderStatusPending : String := "pending"
def OrderStatusApproved : String := "approved"
def OrderStatusRejected : String := "rejected"
def OrderStatusInTransit : String := "in_transit"
def OrderStatusDelivered : String := "delivered"
def OrderStatusInstalled : String := "installed"
def OrderStatusCancelled : String := "cancelled"

def SubscriptionStatusActive : String := "active"
def SubscriptionStatusPaused : String := "paused"
def SubscriptionStatusCancelled : String := "cancelled"

def ServiceStatusPending : String := "pending"
def ServiceStatusAssigned : String := "assigned"
def ServiceStatusScheduled : String := "scheduled"
def ServiceStatusInProgress : String := "in_progress"
def ServiceStatusCompleted : String := "completed"
def ServiceStatusCancelled : String := "cancelled"

def PaymentStatusPending : String := "pending"
def PaymentStatusSuccess : String := "success"
def PaymentStatusFailed : String := "failed"
def PaymentStatusRefunded : String := "refunded"

def RoleAdmin : String := "admin"
def RoleFranchiseOwner : String := "franchise_owner"
def RoleServiceAgent : String := "service_agent"
def RoleCustomer : String := "customer"

/-! ## Entities (database/models.go) -/

structure User where
  id : Nat
  name : String
  role : String
  franchiseID : Option Nat
deriving Repr, DecidableEq

structure Product where
  id : Nat
  name : String
  monthlyRent : Int
  securityDeposit : Int
  installationFee : Int
  isActive : Bool
deriving Repr, DecidableEq

structure Franchise where
  id : Nat
  ownerID : Nat
  name : String
  isActive : Bool
deriving Repr, DecidableEq

structure Order where
  id : Nat
  customerID : Nat
  productID : Nat
  franchiseID : Nat
  serviceAgentID : Option Nat
  status : String
  shippingAddress : String
  billingAddress : String
  rentalStartDate : Int
  rentalDuration : Nat
  monthlyRent : Int
  securityDeposit : Int
  installationFee : Int
  totalInitialAmount : Int
  notes : String
deriving Repr, DecidableEq

structure Subscription where
  id : Nat
  orderID : Nat
  customerID : Nat
  productID : Nat
  franchiseID : Nat
  serviceAgentID : Option Nat
  status : String
  startDate : Int
  endDate : Int
  nextBillingDate : Int
  monthlyRent : Int
  lastMaintenance : Int
  nextMaintenance : Int
  maintenanceNotes : String
  notes : String
  -- backs the "auto_renew" map update in UpdateSubscription (the GORM
  -- model struct does not declare the column; the controller writes it
  -- by name)
  autoRenew : Bool
deriving Repr, DecidableEq

structure Payment where
  id : Nat
  customerID : Nat
  orderID : Option Nat
  subscriptionID : Option Nat
  amount : Int
  paymentType : String
  status : String
  invoiceNumber : String
  paymentMethod : String
  transactionID : String
  paymentDetails : String
  notes : String
deriving Repr, DecidableEq

structure ServiceRequest where
  id : Nat
  customerID : Nat
  subscriptionID : Nat
  franchiseID : Nat
  serviceAgentID : Option Nat
  stype : String
  status : String
  description : String
  scheduledTime : Option Int
  completionTime : Option Int
  notes : String
  rating : Option Int
  feedback : String
deriving Repr, DecidableEq

structure Notification where
  id : Nat
  userID : Nat
  title : String
  message : String
  ntype : String
  relatedID : Option Nat
  relatedType : String
  isRead : Bool
deriving Repr, DecidableEq

/-- The relational store: one list per table plus autoincrement counters. -/
structure AppState where
  products : List Product
  franchises : List Franchise
  users : List User
  orders : List Order
  subscriptions : List Subscription
  payments : List Payment
  serviceRequests : List ServiceRequest
  notifications : List Notification
  nextOrderId : Nat
  nextSubscriptionId : Nat
  nextPaymentId : Nat
  nextServiceRequestId : Nat
  nextNotificationId : Nat
deriving Repr, DecidableEq

/-- Typed errors mirroring the controllers' JSON error responses. -/
inductive ApiErr where
  | permissionDenied (msg : String)
  | notFound (msg : String)
  | invalidState (msg : String)
  | invalidSignature
  | validationError (msg : String)
  | serverError (msg : String)
deriving Repr, DecidableEq

def exceptIsOk {ε α : Type} (r : Except ε α) : Bool :=
  match r with
  | .ok _ => true
  | .error _ => false

/-! ## Row lookups (GORM `First` = first row matching the predicate) -/

def findProduct (st : AppState) (pid : Nat) : Option Product :=
  st.products.find? (fun p => p.id == pid)

def findFranchise (st : AppState) (fid : Nat) : Option Franchise :=
  st.franchises.find? (fun f => f.id == fid)

def findOrder (st : AppState) (oid : Nat) : Option Order :=
  st.orders.find? (fun o => o.id == oid)

def findSubscription (st : AppState) (sid : Nat) : Option Subscription :=
  st.subscriptions.find? (fun s => s.id == sid)

def findServiceRequest (st : AppState) (rid : Nat) : Option ServiceRequest :=
  st.serviceRequests.find? (fun r => r.id == rid)

/-- Lookup for `payments WHERE subscription_id = ? AND payment_type = 'monthly' AND status = 'pending'`. -/
def findPendingMonthlyPayment (st : AppState) (sid : Nat) : Option Payment :=
  st.payments.find? (fun p =>
    p.subscriptionID == some sid && p.paymentType == "monthly" && p.status == PaymentStatusPending)

/-- Helper for generateInvoiceNumber (order_controller.go):
    "INV-" + YYYYMMDD + "-" + order id. -/
def generateInvoiceNumber (orderID : Nat) (now : DateTime) : String :=
  "INV-" ++ dateStamp now ++ "-" ++ toString orderID

/-- The razorpay payment_details JSON blob written on verification. -/
def paymentDetailsJSON (gatewayOrderRef gatewayPaymentRef : String) : String :=
  "\x7b\"razorpay_order_id\": \"" ++ gatewayOrderRef ++
    "\", \"razorpay_payment_id\": \"" ++ gatewayPaymentRef ++ "\"\x7d"

/-! ## CreateOrder (order_controller.go, CreateOrder) -/

structure OrderRequest where
  productID : Nat
  franchiseID : Nat
  shippingAddress : String
  billingAddress : String
  rentalDuration : Nat
  notes : String
deriving Repr, DecidableEq

/-- CreateOrder: customer-only; requires an existing active product and
    an existing active franchise; in one transaction inserts the pending
    order, its pending initial payment and an order-placed notification;
    responds with the created order and invoice number.
    (`binding:"required,min=1"` on rental_duration is the leading
    validation check.) -/
def createOrder (st : AppState) (role : String) (customerID : Nat)
    (req : OrderRequest) (now : DateTime) :
    Except ApiErr (AppState × Order × String) :=
  if role != RoleCustomer then .error (.permissionDenied "Permission denied") else
  if req.rentalDuration < 1 then .error (.validationError "Invalid request data") else
  match findProduct st req.productID with
  | none => .error (.notFound "Product not found")
  | some product =>
    if !product.isActive then .error (.invalidState "Product is not available") else
    match findFranchise st req.franchiseID with
    | none => .error (.notFound "Franchise not found")
    | some franchise =>
      if !franchise.isActive then .error (.invalidState "Franchise is not active") else
      let totalInitialAmount := product.securityDeposit + product.installationFee + product.monthlyRent
      let orderID := st.nextOrderId
      let order : Order :=
        { id := orderID
          customerID := customerID
          productID := req.productID
          franchiseID := req.franchiseID
          serviceAgentID := none
          status := OrderStatusPending
          shippingAddress := req.shippingAddress
          billingAddress := req.billingAddress
          rentalStartDate := toEpoch now
          rentalDuration := req.rentalDuration
          monthlyRent := product.monthlyRent
          securityDeposit := product.securityDeposit
          installationFee := product.installationFee
          totalInitialAmount := totalInitialAmount
          notes := req.notes }
      let invoiceNumber := generateInvoiceNumber orderID now
      let payment : Payment :=
        { id := st.nextPaymentId
          customerID := customerID
          orderID := some orderID
          subscriptionID := none
          amount := totalInitialAmount
          paymentType := "initial"
          status := PaymentStatusPending
          invoiceNumber := invoiceNumber
          paymentMethod := ""
          transactionID := ""
          paymentDetails := ""
          notes := "Initial payment for order" }
      let notif : Notification :=
        { id := st.nextNotificationId
          userID := customerID
          title := "Order Placed Successfully"
          message := "Your order for " ++ product.name ++ " has been placed and is pending approval."
          ntype := "order"
          relatedID := some orderID
          relatedType := "order"
          isRead := false }
      .ok ({ st with
              orders := st.orders ++ [order]
              payments := st.payments ++ [payment]
              notifications := st.notifications ++ [notif]
              nextOrderId := orderID + 1
              nextPaymentId := st.nextPaymentId + 1
              nextNotificationId := st.nextNotificationId + 1 },
            order, invoiceNumber)

/-! ## UpdateOrderStatus (order_controller.go, UpdateOrderStatus) -/

structure UpdateOrderStatusRequest where
  status : String
  serviceAgentID : Option Int
  notes : String
deriving Repr, DecidableEq

/-- The customer-facing message keyed by the new order status. -/
def orderStatusMessage (status : String) : String :=
  if status == OrderStatusApproved then
    "Your order has been approved. Your subscription is now active."
  else if status == OrderStatusRejected then
    "Your order has been rejected. Please contact customer support for details."
  else if status == OrderStatusCancelled then
    "Your order has been cancelled."
  else if status == OrderStatusInTransit then
    "Your order is in transit and will be delivered soon."
  else if status == OrderStatusDelivered then
    "Your order has been delivered. Installation will be scheduled soon."
  else if status == OrderStatusInstalled then
    "Your water purifier has been successfully installed."
  else
    "Your order status has been updated to " ++ status

/-- UpdateOrderStatus: admin or owning franchise owner sets the status
    field (plus optional agent assignment and note append); when the new
    status is "approved" and the current one is not, the same
    transaction creates the paired subscription and rewrites the order's
    rental_start_date to the approval time; the transaction ends with
    one status-keyed customer notification. -/
def updateOrderStatus (st : AppState) (role : String) (userID : Nat)
    (orderID : Nat) (req : UpdateOrderStatusRequest) (now : DateTime) :
    Except ApiErr AppState :=
  if role != RoleAdmin && role != RoleFranchiseOwner then
    .error (.permissionDenied "Permission denied")
  else
  match findOrder st orderID with
  | none => .error (.notFound "Order not found")
  | some order =>
    let authorized : Except ApiErr Unit :=
      if role == RoleFranchiseOwner then
        match findFranchise st order.franchiseID with
        | none => .error (.serverError "Server error")
        | some franchise =>
          if franchise.ownerID != userID then
            .error (.permissionDenied "You don't have permission to update this order")
          else .ok ()
      else .ok ()
    match authorized with
    | .error e => .error e
    | .ok _ =>
      let currentStatus := order.status
      let order1 : Order :=
        { order with
            status := req.status
            serviceAgentID :=
              match req.serviceAgentID with
              | some a => if a > 0 then some a.toNat else order.serviceAgentID
              | none => order.serviceAgentID
            notes :=
              if req.notes != "" then
                if order.notes != "" then order.notes ++ " | " ++ req.notes else req.notes
              else order.notes }
      -- approval handoff: runs only when the status flips to approved
      let approving := req.status == OrderStatusApproved && currentStatus != OrderStatusApproved
      let order2 : Order := if approving then { order1 with rentalStartDate := toEpoch now } else order1
      let newSubscriptions : List Subscription :=
        if approving then
          [{ id := st.nextSubscriptionId
             orderID := orderID
             customerID := order.customerID
             productID := order.productID
             franchiseID := order.franchiseID
             serviceAgentID := none
             status := SubscriptionStatusActive
             startDate := toEpoch now
             endDate := addMonths order1.rentalDuration now
             nextBillingDate := addMonths 1 now
             monthlyRent := order1.monthlyRent
             lastMaintenance := goZeroTime
             nextMaintenance := addMonths 3 now
             maintenanceNotes := "Initial setup complete"
             notes := "Created from order #" ++ toString orderID
             autoRenew := false }]
        else []
      let notif : Notification :=
        { id := st.nextNotificationId
          userID := order.customerID
          title := "Order Status Updated"
          message := orderStatusMessage req.status
          ntype := "order"
          relatedID := some orderID
          relatedType := "order"
          isRead := false }
      .ok { st with
              orders := st.orders.map (fun o => if o.id == orderID then order2 else o)
              subscriptions := st.subscriptions ++ newSubscriptions
              notifications := st.notifications ++ [notif]
              nextSubscriptionId := if approving then st.nextSubscriptionId + 1 else st.nextSubscriptionId
              nextNotificationId := st.nextNotificationId + 1 }

/-! ## VerifyPayment (payment_controller.go, VerifyPayment) -/

structure PaymentVerificationRequest where
  paymentID : String
  orderID : String
  signature : String
  aquaHomeOrderID : Nat
  subscriptionID : Option Nat
deriving Repr, DecidableEq

/-- VerifyPayment: customer-only gateway callback.  The supplied
    signature is compared against the HMAC (abstracted as the `hmac`
    parameter applied to the shared secret and
    `gatewayOrderRef ++ "|" ++ gatewayPaymentRef`); a mismatch is
    rejected before the transaction is opened.  With `subscriptionID`
    present this is a monthly payment: the pending monthly payment row
    is marked success (or a fresh success row is inserted) and the
    subscription's next_billing_date is set to now + 1 month.  Without
    `subscriptionID` it is an initial payment: the order must belong to
    the caller and still be pending; every payment row with that
    order_id and payment_type "initial" is set to success and the order
    is advanced to approved.  Both branches end with one customer
    notification inside the same transaction. -/
def verifyPayment (hmac : String → String → String) (secret : String)
    (st : AppState) (role : String) (customerID : Nat)
    (req : PaymentVerificationRequest) (now : DateTime) :
    Except ApiErr AppState :=
  if role != RoleCustomer then .error (.permissionDenied "Permission denied") else
  let data := req.orderID ++ "|" ++ req.paymentID
  let expectedSignature := hmac secret data
  if expectedSignature != req.signature then .error .invalidSignature else
  match req.subscriptionID with
  | some sid =>
    -- monthly payment for a subscription
    match findSubscription st sid with
    | none => .error (.notFound "Subscription not found")
    | some subscription =>
      if customerID != subscription.customerID then
        .error (.permissionDenied "This subscription doesn't belong to you")
      else
        let orderID := subscription.orderID
        let details := paymentDetailsJSON req.orderID req.paymentID
        let afterPayments : List Payment × Nat :=
          match findPendingMonthlyPayment st sid with
          | some payment =>
            (st.payments.map (fun p =>
                if p.id == payment.id then
                  { payment with
                      status := PaymentStatusSuccess
                      transactionID := req.paymentID
                      paymentMethod := "razorpay"
                      paymentDetails := details }
                else p),
              st.nextPaymentId)
          | none =>
            (st.payments ++
              [{ id := st.nextPaymentId
                 customerID := customerID
                 orderID := some orderID
                 subscriptionID := some sid
                 amount := subscription.monthlyRent
                 paymentType := "monthly"
                 status := PaymentStatusSuccess
                 invoiceNumber := generateInvoiceNumber orderID now
                 paymentMethod := "razorpay"
                 transactionID := req.paymentID
                 paymentDetails := details
                 notes := "" }],
              st.nextPaymentId + 1)
        let notif : Notification :=
          { id := st.nextNotificationId
            userID := customerID
            title := "Payment Successful"
            message := "Monthly payment has been processed successfully."
            ntype := "payment"
            relatedID := some orderID
            relatedType := "order"
            isRead := false }
        .ok { st with
                payments := afterPayments.1
                nextPaymentId := afterPayments.2
                subscriptions := st.subscriptions.map (fun s =>
                  if s.id == sid then { s with nextBillingDate := addMonths 1 now } else s)
                notifications := st.notifications ++ [notif]
                nextNotificationId := st.nextNotificationId + 1 }
  | none =>
    -- initial payment for an order
    let orderID := req.aquaHomeOrderID
    match findOrder st orderID with
    | none => .error (.notFound "Order not found")
    | some order =>
      if customerID != order.customerID then
        .error (.permissionDenied "This order doesn't belong to you")
      else if order.status != OrderStatusPending then
        .error (.invalidState "Order is not in pending state")
      else
        let details := paymentDetailsJSON req.orderID req.paymentID
        let notif : Notification :=
          { id := st.nextNotificationId
            userID := customerID
            title := "Payment Successful"
            message := "Initial payment has been processed successfully."
            ntype := "payment"
            relatedID := some orderID
            relatedType := "order"
            isRead := false }
        .ok { st with
                payments := st.payments.map (fun p =>
                  if p.orderID == some orderID && p.paymentType == "initial" then
                    { p with
                        status := PaymentStatusSuccess
                        transactionID := req.paymentID
                        paymentMethod := "razorpay"
                        paymentDetails := details }
                  else p)
                orders := st.orders.map (fun o =>
                  if o.id == orderID then { o with status := OrderStatusApproved } else o)
                notifications := st.notifications ++ [notif]
                nextNotificationId := st.nextNotificationId + 1 }

/-! ## UpdateSubscription (subscription_controller.go, UpdateSubscription) -/

structure SubscriptionUpdateRequest where
  status : String
  autoRenew : Option Bool
  pauseEndDate : Option DateTime
deriving Repr, DecidableEq

/-- Visibility of a subscription to the caller: admin sees any row,
    a franchise owner the rows of franchises they own, a customer their
    own rows. -/
def findSubscriptionFor (st : AppState) (role : String) (userID sid : Nat) :
    Option Subscription :=
  if role == RoleAdmin then findSubscription st sid
  else if role == RoleFranchiseOwner then
    st.subscriptions.find? (fun s =>
      s.id == sid && st.franchises.any (fun f => f.id == s.franchiseID && f.ownerID == userID))
  else
    st.subscriptions.find? (fun s => s.id == sid && s.customerID == userID)

/-- UpdateSubscription: status changes are honoured for admin and
    franchise owner; pausing requires a pause end date and extends
    end_date by `pauseEndDate - now`; resuming from paused is a pure
    status flip; auto_renew may be toggled by any role.  An empty update
    set is rejected.  The update plus the customer notification commit
    in one transaction.
    (pause_end_date arrives as an RFC3339 string; it is modelled
    already parsed, `none` standing for the empty string.) -/
def updateSubscription (st : AppState) (role : String) (userID : Nat)
    (sid : Nat) (req : SubscriptionUpdateRequest) (now : DateTime) :
    Except ApiErr AppState :=
  if role != RoleAdmin && role != RoleFranchiseOwner && role != RoleCustomer then
    .error (.permissionDenied "Invalid role")
  else
  match findSubscriptionFor st role userID sid with
  | none => .error (.notFound "Subscription not found or you don't have permission")
  | some subscription =>
    let statusRequested := req.status != "" && (role == RoleAdmin || role == RoleFranchiseOwner)
    if statusRequested && req.status == SubscriptionStatusPaused && req.pauseEndDate == none then
      .error (.validationError "Pause end date is required when pausing a subscription")
    else
      let endDateUpd : Option Int :=
        if statusRequested && req.status == SubscriptionStatusPaused then
          match req.pauseEndDate with
          | some pauseEndDate =>
            some (subscription.endDate + (toEpoch pauseEndDate - toEpoch now))
          | none => none
        else none
      let statusUpd : Option String := if statusRequested then some req.status else none
      let autoRenewUpd : Option Bool := req.autoRenew
      if statusUpd == none && endDateUpd == none && autoRenewUpd == none then
        .error (.validationError "No valid updates provided")
      else
        let subscription2 : Subscription :=
          { subscription with
              status := statusUpd.getD subscription.status
              endDate := endDateUpd.getD subscription.endDate
              autoRenew := autoRenewUpd.getD subscription.autoRenew }
        let newNotifications : List Notification :=
          if subscription.customerID != 0 then
            [{ id := st.nextNotificationId
               userID := subscription.customerID
               title := "Subscription Updated"
               message :=
                 if req.status != "" then
                   "Your subscription status has been updated to " ++ req.status
                 else
                   match req.autoRenew with
                   | some true => "Auto-renewal has been enabled for your subscription"
                   | some false => "Auto-renewal has been disabled for your subscription"
                   | none => ""
               ntype := "subscription"
               relatedID := some subscription.id
               relatedType := "subscription"
               isRead := false }]
          else []
        .ok { st with
                subscriptions := st.subscriptions.map (fun s =>
                  if s.id == subscription.id then subscription2 else s)
                notifications := st.notifications ++ newNotifications
                nextNotificationId :=
                  if subscription.customerID != 0 then st.nextNotificationId + 1
                  else st.nextNotificationId }

/-! ## CreateServiceRequest (service_controller.go, CreateServiceRequest) -/

structure ServiceRequestCreateRequest where
  subscriptionID : Nat
  requestType : String
  description : String
deriving Repr, DecidableEq

/-- CreateServiceRequest: the subscription must belong to the caller
    and be active; inserts the pending request, a customer notification
    and, when the subscription's franchise resolves to an owner, a
    franchise-owner notification, all in one transaction. -/
def createServiceRequest (st : AppState) (userID : Nat)
    (req : ServiceRequestCreateRequest) : Except ApiErr AppState :=
  match st.subscriptions.find? (fun s => s.id == req.subscriptionID && s.customerID == userID) with
  | none => .error (.notFound "Subscription not found or doesn't belong to you")
  | some subscription =>
    if subscription.status != SubscriptionStatusActive then
      .error (.invalidState "Cannot create service request for inactive subscription")
    else
      let srID := st.nextServiceRequestId
      let serviceRequest : ServiceRequest :=
        { id := srID
          customerID := userID
          subscriptionID := req.subscriptionID
          franchiseID := 0
          serviceAgentID := none
          stype := req.requestType
          status := ServiceStatusPending
          description := req.description
          scheduledTime := none
          completionTime := none
          notes := ""
          rating := none
          feedback := "" }
      let customerNotif : Notification :=
        { id := st.nextNotificationId
          userID := userID
          title := "Service Request Created"
          message := "Your service request has been created and is pending assignment."
          ntype := "service_request"
          relatedID := some srID
          relatedType := "service_request"
          isRead := false }
      -- Preload("Franchise"): a missing franchise row loads as the zero
      -- value (owner id 0), so the owner notification is skipped then.
      let ownerID : Nat :=
        match findFranchise st subscription.franchiseID with
        | some franchise => franchise.ownerID
        | none => 0
      let ownerNotifications : List Notification :=
        if subscription.franchiseID != 0 && ownerID != 0 then
          [{ id := st.nextNotificationId + 1
             userID := ownerID
             title := "New Service Request"
             message := "A new service request has been created and needs your attention."
             ntype := "service_request"
             relatedID := some srID
             relatedType := "service_request"
             isRead := false }]
        else []
      .ok { st with
              serviceRequests := st.serviceRequests ++ [serviceRequest]
              notifications := st.notifications ++ [customerNotif] ++ ownerNotifications
              nextServiceRequestId := srID + 1
              nextNotificationId := st.nextNotificationId + 1 + ownerNotifications.length }

/-! ## UpdateServiceRequest (service_controller.go, UpdateServiceRequest) -/

structure ServiceRequestUpdateRequest where
  status : String
  agentID : Nat
  scheduledDate : Option DateTime
  completionDate : Option DateTime
  notes : String
deriving Repr, DecidableEq

/-- The franchise-owner permission join: the request's subscription's
    franchise must be owned by the caller. -/
def frOwnsServiceRequest (st : AppState) (requestID userID : Nat) : Bool :=
  st.serviceRequests.any (fun r =>
    r.id == requestID &&
      st.subscriptions.any (fun s =>
        s.id == r.subscriptionID &&
          st.franchises.any (fun f => f.id == s.franchiseID && f.ownerID == userID)))

/-- Agent validation: franchise owners may only assign service agents of
    a franchise they own; admins any service agent. -/
def validServiceAgent (st : AppState) (role : String) (userID agentID : Nat) : Bool :=
  if role == RoleFranchiseOwner then
    st.users.any (fun u =>
      u.id == agentID && u.role == RoleServiceAgent &&
        (match u.franchiseID with
         | some fid => st.franchises.any (fun f => f.id == fid && f.ownerID == userID)
         | none => false))
  else
    st.users.any (fun u => u.id == agentID && u.role == RoleServiceAgent)

/-- UpdateServiceRequest: role-scoped permission check (admin: any
    request; franchise owner: their franchise's requests; agent:
    requests assigned to them; customer: only status=cancelled on their
    own still-pending request), then a field-by-field update set
    (status, scheduled/completion time, notes, validated agent
    assignment with auto-promotion pending→assigned), rejected when
    empty, followed by one notification per changed field, all in one
    transaction.  (The RFC3339 date strings are modelled already
    parsed, `none` standing for the empty string.) -/
def updateServiceRequest (st : AppState) (role : String) (userID : Nat)
    (requestID : Nat) (req : ServiceRequestUpdateRequest) :
    Except ApiErr AppState :=
  let permitted : Except ApiErr Unit :=
    if role == RoleAdmin then
      if (findServiceRequest st requestID).isSome then .ok ()
      else .error (.permissionDenied "You don't have permission to update this service request")
    else if role == RoleFranchiseOwner then
      if frOwnsServiceRequest st requestID userID then .ok ()
      else .error (.permissionDenied "You don't have permission to update this service request")
    else if role == RoleServiceAgent then
      if st.serviceRequests.any (fun r => r.id == requestID && r.serviceAgentID == some userID) then .ok ()
      else .error (.permissionDenied "You don't have permission to update this service request")
    else if role == RoleCustomer then
      if req.status != ServiceStatusCancelled then
        .error (.permissionDenied "Customers can only cancel service requests")
      else if (st.serviceRequests.find? (fun r =>
          r.id == requestID && r.customerID == userID && r.status == ServiceStatusPending)).isSome then
        .ok ()
      else .error (.permissionDenied "You can only cancel pending service requests")
    else .error (.permissionDenied "Invalid role")
  match permitted with
  | .error e => .error e
  | .ok _ =>
    match findServiceRequest st requestID with
    | none => .error (.serverError "Server error")
    | some current =>
      let privileged := role == RoleAdmin || role == RoleFranchiseOwner || role == RoleServiceAgent
      let statusUpd0 : Option String :=
        if req.status != "" &&
            (privileged || (role == RoleCustomer && req.status == ServiceStatusCancelled)) then
          some req.status
        else none
      let schedUpd : Option Int :=
        if privileged then req.scheduledDate.map toEpoch else none
      let compUpd : Option Int :=
        if privileged then req.completionDate.map toEpoch else none
      let notesUpd : Option String :=
        if req.notes != "" && privileged then some req.notes else none
      let agentRequested := req.agentID != 0 && (role == RoleAdmin || role == RoleFranchiseOwner)
      if agentRequested && !validServiceAgent st role userID req.agentID then
        .error (.validationError "Invalid service agent ID")
      else
        let agentUpd : Option Nat := if agentRequested then some req.agentID else none
        -- assigning an agent auto-promotes a still-pending request
        let statusUpd : Option String :=
          if agentRequested && current.status == ServiceStatusPending then
            some ServiceStatusAssigned
          else statusUpd0
        if statusUpd == none && schedUpd == none && compUpd == none &&
            notesUpd == none && agentUpd == none then
          .error (.validationError "No valid updates provided")
        else
          let updated : ServiceRequest :=
            { current with
                status := statusUpd.getD current.status
                scheduledTime := match schedUpd with | some t => some t | none => current.scheduledTime
                completionTime := match compUpd with | some t => some t | none => current.completionTime
                notes := notesUpd.getD current.notes
                serviceAgentID := match agentUpd with | some a => some a | none => current.serviceAgentID }
          let statusNotifs : List Notification :=
            if req.status != "" then
              [{ id := 0
                 userID := current.customerID
                 title := "Service Request Updated"
                 message := "Your service request status has been updated to " ++ req.status ++ "."
                 ntype := "service_request"
                 relatedID := some current.id
                 relatedType := "service_request"
                 isRead := false }]
            else []
          let agentNotifs : List Notification :=
            if req.agentID != 0 then
              [{ id := 0
                 userID := current.customerID
                 title := "Service Agent Assigned"
                 message := "A service agent has been assigned to your service request."
                 ntype := "service_request"
                 relatedID := some current.id
                 relatedType := "service_request"
                 isRead := false },
               { id := 0
                 userID := req.agentID
                 title := "New Service Assignment"
                 message := "You have been assigned to service request #" ++ toString current.id ++ "."
                 ntype := "service_request"
                 relatedID := some current.id
                 relatedType := "service_request"
                 isRead := false }]
            else []
          let schedNotifs : List Notification :=
            match req.scheduledDate with
            | some d =>
              [{ id := 0
                 userID := current.customerID
                 title := "Service Visit Scheduled"
                 message := "Your service request has been scheduled for " ++ rfc3339 d ++ "."
                 ntype := "service_request"
                 relatedID := some current.id
                 relatedType := "service_request"
                 isRead := false }]
            | none => []
          let newNotifs :=
            (statusNotifs ++ agentNotifs ++ schedNotifs).enum.map
              (fun ni => { ni.2 with id := st.nextNotificationId + ni.1 })
          .ok { st with
                  serviceRequests := st.serviceRequests.map (fun r =>
                    if r.id == requestID then updated else r)
                  notifications := st.notifications ++ newNotifs
                  nextNotificationId := st.nextNotificationId + newNotifs.length }

/-! ## CancelServiceRequest (service_controller.go, CancelServiceRequest) -/

/-- CancelServiceRequest: the request must exist and belong to the
    caller; cancellation is legal only from pending, assigned or
    scheduled; it flips the status to cancelled and notifies the
    customer plus, when assigned, the agent, in one transaction. -/
def cancelServiceRequest (st : AppState) (userID : Nat) (requestID : Nat) :
    Except ApiErr AppState :=
  match st.serviceRequests.find? (fun r => r.id == requestID && r.customerID == userID) with
  | none => .error (.notFound "Service request not found or doesn't belong to you")
  | some serviceRequest =>
    if serviceRequest.status != ServiceStatusPending &&
        serviceRequest.status != ServiceStatusAssigned &&
        serviceRequest.status != ServiceStatusScheduled then
      .error (.invalidState "Service request cannot be cancelled in its current state")
    else
      let customerNotif : Notification :=
        { id := st.nextNotificationId
          userID := userID
          title := "Service Request Cancelled"
          message := "Your service request has been cancelled."
          ntype := "service_request"
          relatedID := some serviceRequest.id
          relatedType := "service_request"
          isRead := false }
      let agentNotifs : List Notification :=
        match serviceRequest.serviceAgentID with
        | some agentID =>
          [{ id := st.nextNotificationId + 1
             userID := agentID
             title := "Service Request Cancelled"
             message := "A service request assigned to you has been cancelled by the customer."
             ntype := "service_request"
             relatedID := some serviceRequest.id
             relatedType := "service_request"
             isRead := false }]
        | none => []
      .ok { st with
              serviceRequests := st.serviceRequests.map (fun r =>
                if r.id == serviceRequest.id then { r with status := ServiceStatusCancelled } else r)
              notifications := st.notifications ++ [customerNotif] ++ agentNotifs
              nextNotificationId := st.nextNotificationId + 1 + agentNotifs.length }

/-! ## SubmitServiceFeedback (service_controller.go, SubmitServiceFeedback) -/

/-- SubmitServiceFeedback: the rating binding is 1-5 with a required
    feedback text; the request must exist, belong to the caller and be
    completed; writes rating and feedback and notifies the assigned
    agent when there is one, in one transaction. -/
def submitServiceFeedback (st : AppState) (userID : Nat) (requestID : Nat)
    (rating : Int) (feedback : String) : Except ApiErr AppState :=
  if rating < 1 || rating > 5 || feedback == "" then
    .error (.validationError "Invalid request data")
  else
  match st.serviceRequests.find? (fun r =>
      r.id == requestID && r.customerID == userID && r.status == ServiceStatusCompleted) with
  | none => .error (.notFound "Service request not found, doesn't belong to you, or is not completed")
  | some serviceRequest =>
    let agentNotifs : List Notification :=
      match serviceRequest.serviceAgentID with
      | some agentID =>
        [{ id := st.nextNotificationId
           userID := agentID
           title := "Service Feedback Received"
           message := "You received a " ++ toString rating ++ "-star rating for your service."
           ntype := "service_feedback"
           relatedID := some serviceRequest.id
           relatedType := "service_request"
           isRead := false }]
      | none => []
    .ok { st with
            serviceRequests := st.serviceRequests.map (fun r =>
              if r.id == serviceRequest.id then
                { r with rating := some rating, feedback := feedback }
              else r)
            notifications := st.notifications ++ agentNotifs
            nextNotificationId := st.nextNotificationId + agentNotifs.length }

/-! ## Concrete scenarios

A small store with one active product (monthly rent 50, deposit 20,
installation fee 10 — the worked example of the specification) and one
active franchise; customer 7 places the orders, user 9 owns the
franchise, user 99 is an administrator. -/

def demoProduct : Product :=
  { id := 1, name := "AquaPure", monthlyRent := 50, securityDeposit := 20,
    installationFee := 10, isActive := true }

def demoFranchise : Franchise :=
  { id := 1, ownerID := 9, name := "Central", isActive := true }

def demoState : AppState :=
  { products := [demoProduct]
    franchises := [demoFranchise]
    users := []
    orders := []
    subscriptions := []
    payments := []
    serviceRequests := []
    notifications := []
    nextOrderId := 1
    nextSubscriptionId := 1
    nextPaymentId := 1
    nextServiceRequestId := 1
    nextNotificationId := 1 }

/-- A stand-in for the HMAC-SHA256 hex digest used when running the
    model on concrete inputs (any function of secret and data works,
    since the controllers only compare digests for equality). -/
def testHmac : String → String → String := fun _ data => "sig:" ++ data

def tJan10 : DateTime := ⟨2025, 1, 10, 0⟩
def tJan30 : DateTime := ⟨2025, 1, 30, 0⟩
def tFeb01 : DateTime := ⟨2025, 2, 1, 0⟩

def flowOrderReq : OrderRequest :=
  { productID := 1, franchiseID := 1, shippingAddress := "12 Lake Rd",
    billingAddress := "12 Lake Rd", rentalDuration := 12, notes := "" }

def flowPayReq : PaymentVerificationRequest :=
  { paymentID := "pay_1", orderID := "rzp_order_1",
    signature := testHmac "secret" ("rzp_order_1" ++ "|" ++ "pay_1"),
    aquaHomeOrderID := 1, subscriptionID := none }

/-- Customer 7 places an order for the demo product. -/
def flowCreate : Except ApiErr (AppState × Order × String) :=
  createOrder demoState RoleCustomer 7 flowOrderReq tJan10

def flowS1 : AppState :=
  match flowCreate with
  | .ok r => r.1
  | .error _ => demoState

/-- Customer 7 verifies the initial payment with a valid signature. -/
def flowVerify : Except ApiErr AppState :=
  verifyPayment testHmac "secret" flowS1 RoleCustomer 7 flowPayReq tJan30

def flowS2 : AppState :=
  match flowVerify with
  | .ok s => s
  | .error _ => flowS1

/-- An administrator then pushes the approved order's status string back
    to "pending" (UpdateOrderStatus performs no transition-table check). -/
def c5Update : Except ApiErr AppState :=
  updateOrderStatus flowS2 RoleAdmin 99 1
    { status := "pending", serviceAgentID := none, notes := "" } tFeb01

def c5s3 : AppState :=
  match c5Update with
  | .ok s => s
  | .error _ => flowS2

/-! Monthly-payment scenario: one active subscription of customer 7,
verified twice, on January 30 and on February 1. -/

def c6start : DateTime := ⟨2024, 12, 1, 0⟩

def c6sub : Subscription :=
  { id := 1, orderID := 1, customerID := 7, productID := 1, franchiseID := 1,
    serviceAgentID := none, status := SubscriptionStatusActive,
    startDate := toEpoch c6start, endDate := addMonths 12 c6start,
    nextBillingDate := addMonths 1 c6start, monthlyRent := 50,
    lastMaintenance := goZeroTime, nextMaintenance := addMonths 3 c6start,
    maintenanceNotes := "", notes := "", autoRenew := false }

def c6base : AppState := { demoState with subscriptions := [c6sub] }

def c6req1 : PaymentVerificationRequest :=
  { paymentID := "pay_m1", orderID := "rzp_order_m1",
    signature := testHmac "secret" ("rzp_order_m1" ++ "|" ++ "pay_m1"),
    aquaHomeOrderID := 0, subscriptionID := some 1 }

def c6req2 : PaymentVerificationRequest :=
  { paymentID := "pay_m2", orderID := "rzp_order_m2",
    signature := testHmac "secret" ("rzp_order_m2" ++ "|" ++ "pay_m2"),
    aquaHomeOrderID := 0, subscriptionID := some 1 }

def c6v1 : Except ApiErr AppState :=
  verifyPayment testHmac "secret" c6base RoleCustomer 7 c6req1 tJan30

def c6s1 : AppState :=
  match c6v1 with
  | .ok s => s
  | .error _ => c6base

def c6v2 : Except ApiErr AppState :=
  verifyPayment testHmac "secret" c6s1 RoleCustomer 7 c6req2 tFeb01

def c6s2 : AppState :=
  match c6v2 with
  | .ok s => s
  | .error _ => c6s1

/-! Service-request scenario: the pending order of `flowS1` is approved
by an administrator (creating subscription 1), customer 7 opens a
service request, an administrator completes it, the customer rates it,
and an administrator then moves it back to "in_progress". -/

def c9Approve : Except ApiErr AppState :=
  updateOrderStatus flowS1 RoleAdmin 99 1
    { status := "approved", serviceAgentID := none, notes := "" } tJan30

def c9s2 : AppState :=
  match c9Approve with
  | .ok s => s
  | .error _ => flowS1

def c9CreateSR : Except ApiErr AppState :=
  createServiceRequest c9s2 7
    { subscriptionID := 1, requestType := "repair", description := "leaking filter" }

def c9s3 : AppState :=
  match c9CreateSR with
  | .ok s => s
  | .error _ => c9s2

def c9Complete : Except ApiErr AppState :=
  updateServiceRequest c9s3 RoleAdmin 99 1
    { status := ServiceStatusCompleted, agentID := 0, scheduledDate := none,
      completionDate := none, notes := "" }

def c9s4 : AppState :=
  match c9Complete with
  | .ok s => s
  | .error _ => c9s3

def c9Feedback : Except ApiErr AppState :=
  submitServiceFeedback c9s4 7 1 5 "great service"

def c9s5 : AppState :=
  match c9Feedback with
  | .ok s => s
  | .error _ => c9s4

def c9Reopen : Except ApiErr AppState :=
  updateServiceRequest c9s5 RoleAdmin 99 1
    { status := ServiceStatusInProgress, agentID := 0, scheduledDate := none,
      completionDate := none, notes := "" }

def c9s6 : AppState :=
  match c9Reopen with
  | .ok s => s
  | .error _ => c9s5

/-- A verification request carrying a signature that does not match any
    HMAC digest of its gateway references. -/
def c2BadReq : PaymentVerificationRequest :=
  { paymentID := "pay_1", orderID := "rzp_order_1", signature := "tampered",
    aquaHomeOrderID := 1, subscriptionID := none }

/-- The order `flowCreate` inserts (spelled out field by field). -/
def flowOrderExpected : Order :=
  { id := 1, customerID := 7, productID := 1, franchiseID := 1,
    serviceAgentID := none, status := OrderStatusPending,
    shippingAddress := "12 Lake Rd", billingAddress := "12 Lake Rd",
    rentalStartDate := toEpoch tJan10, rentalDuration := 12,
    monthlyRent := 50, securityDeposit := 20, installationFee := 10,
    totalInitialAmount := 80, notes := "" }

/-! Service-request cancellation scenario: customer 7 has one assigned
request (agent 5) and one already in progress. -/

def c8srAssigned : ServiceRequest :=
  { id := 1, customerID := 7, subscriptionID := 1, franchiseID := 1,
    serviceAgentID := some 5, stype := "maintenance",
    status := ServiceStatusAssigned, description := "filter change",
    scheduledTime := none, completionTime := none, notes := "",
    rating := none, feedback := "" }

def c8srInProgress : ServiceRequest :=
  { id := 2, customerID := 7, subscriptionID := 1, franchiseID := 1,
    serviceAgentID := some 5, stype := "repair",
    status := ServiceStatusInProgress, description := "pump noise",
    scheduledTime := none, completionTime := none, notes := "",
    rating := none, feedback := "" }

def c8state : AppState :=
  { demoState with
      serviceRequests := [c8srAssigned, c8srInProgress]
      nextServiceRequestId := 3 }

/-! Initial-payment settlement scenario with two initial payment rows,
one already failed and one pending, for the same pending order. -/

def c10order : Order :=
  { id := 1, customerID := 7, productID := 1, franchiseID := 1,
    serviceAgentID := none, status := OrderStatusPending,
    shippingAddress := "12 Lake Rd", billingAddress := "12 Lake Rd",
    rentalStartDate := toEpoch tJan10, rentalDuration := 12,
    monthlyRent := 50, securityDeposit := 20, installationFee := 10,
    totalInitialAmount := 80, notes := "" }

def c10payFailed : Payment :=
  { id := 1, customerID := 7, orderID := some 1, subscriptionID := none,
    amount := 80, paymentType := "initial", status := PaymentStatusFailed,
    invoiceNumber := "INV-20250110-1", paymentMethod := "",
    transactionID := "", paymentDetails := "", notes := "" }

def c10payPending : Payment :=
  { id := 2, customerID := 7, orderID := some 1, subscriptionID := none,
    amount := 80, paymentType := "initial", status := PaymentStatusPending,
    invoiceNumber := "INV-20250110-1", paymentMethod := "",
    transactionID := "", paymentDetails := "", notes := "" }

def c10state : AppState :=
  { demoState with
      orders := [c10order]
      payments := [c10payFailed, c10payPending]
      nextOrderId := 2
      nextPaymentId := 3 }

def c10req : PaymentVerificationRequest :=
  { paymentID := "pay_x", orderID := "rzp_order_x",
    signature := testHmac "secret" ("rzp_order_x" ++ "|" ++ "pay_x"),
    aquaHomeOrderID := 1, subscriptionID := none }

/-- The state a status-only UpdateSubscription commit produces: the
    found row `subscription` is replaced by `sub2` and, when the row has
    a customer, a status-update notification is appended.  (Spelled out
    so that pause/resume chains can be stated as plain equations.) -/
def subscriptionUpdatedState (st : AppState) (subscription sub2 : Subscription)
    (statusText : String) : AppState :=
  { st with
      subscriptions := st.subscriptions.map (fun s =>
        if s.id == subscription.id then sub2 else s)
      notifications := st.notifications ++
        (if subscription.customerID != 0 then
          [{ id := st.nextNotificationId
             userID := subscription.customerID
             title := "Subscription Updated"
             message := "Your subscription status has been updated to " ++ statusText
             ntype := "subscription"
             relatedID := some subscription.id
             relatedType := "subscription"
             isRead := false }]
        else [])
      nextNotificationId :=
        if subscription.customerID != 0 then st.nextNotificationId + 1
        else st.nextNotificationId }

/-! ## General lemmas about row updates -/

/-- A keyed row update (`UPDATE ... WHERE p`) commutes with `find?` when
    the update preserves the selection predicate. -/
theorem find?_map_update {α : Type} (p : α → Bool) (f : α → α) (l : List α)
    (hf : ∀ a, p a = true → p (f a) = true) :
    (l.map (fun a => if p a then f a else a)).find? p = (l.find? p).map f := by
  induction l with
  | nil => rfl
  | cons a t ih =>
    by_cases h : p a = true
    · simp only [List.map_cons, if_pos h, List.find?_cons_of_pos _ (hf a h),
        List.find?_cons_of_pos _ h, Option.map_some']
    · simp only [List.map_cons, if_neg h, List.find?_cons_of_neg _ h,
        ih]

/-- Specialisation of `find?_map_update` to a wholesale row rewrite
    (GORM `Save`), which replaces every selected row by one record. -/
theorem find?_map_replace {α : Type} (p : α → Bool) (b : α) (l : List α)
    (hb : p b = true) :
    (l.map (fun a => if p a then b else a)).find? p = (l.find? p).map (fun _ => b) :=
  find?_map_update p (fun _ => b) l (fun _ _ => hb)

/-- A keyed row rewrite (update keyed by `q`, e.g. the primary key)
    commutes with a `find?` whose predicate `p` is at least as strict as
    `q`: when some row satisfied `p` before, the lookup after the
    rewrite returns the replacement row `b` (which satisfies `p`). -/
theorem find?_map_replace_sub {α : Type} (p q : α → Bool) (b : α) (l : List α) (a0 : α)
    (hfind : l.find? p = some a0)
    (hpq : ∀ a, p a = true → q a = true)
    (hpb : p b = true) :
    (l.map (fun s => if q s then b else s)).find? p = some b := by
  induction l with
  | nil => simp at hfind
  | cons x t ih =>
    by_cases hqx : q x = true
    · simp only [List.map_cons, if_pos hqx, List.find?_cons_of_pos _ hpb]
    · have hpx : ¬ p x = true := fun hpx => hqx (hpq x hpx)
      rw [List.find?_cons_of_neg _ hpx] at hfind
      simp only [List.map_cons, if_neg hqx, List.find?_cons_of_neg _ hpx]
      exact ih hfind

/-- The updated image of a selected row is in the updated table. -/
theorem mem_map_update {α : Type} {p : α → Bool} {f : α → α} {l : List α} {a : α}
    (ha : a ∈ l) (hpa : p a = true) :
    f a ∈ l.map (fun x => if p x then f x else x) := by
  have := List.mem_map_of_mem (fun x => if p x then f x else x) ha
  simpa [hpa] using this

/-! ## Claim C1 -/

/-- C1: the claim states that every operation setting an order to
    "approved" — UpdateOrderStatus and the initial-payment branch of
    VerifyPayment — creates the paired Subscription in the same
    transaction, so that an order is approved iff exactly one
    subscription carries its id.  Evaluating the code at the failing
    input refutes this: customer 7 places an order and verifies its
    initial payment with a valid signature; both calls succeed, the
    order ends approved with its payment marked success, yet the
    subscription table is empty — `verifyPayment`'s initial branch only
    updates the payment rows and the order status and never inserts a
    subscription. -/
theorem verifyPayment_initial_leaves_no_subscription :
    exceptIsOk flowCreate = true ∧
    exceptIsOk flowVerify = true ∧
    (findOrder flowS2 1).map Order.status = some OrderStatusApproved ∧
    flowS2.payments.map Payment.status = [PaymentStatusSuccess] ∧
    flowS2.subscriptions = [] := by
  decide

/-! ## Claim C5: counterexample -/

/-- C5 counterexample: the invariant "initial payment success implies
    order not pending" does not hold over all reachable states.  After
    the order is created and its initial payment verified (order
    approved, payment success), an administrator calls
    UpdateOrderStatus with the raw status string "pending" — the
    controller applies any requested status without a transition-table
    check — leaving a pending order whose initial payment is success. -/
theorem order_pending_with_successful_payment :
    exceptIsOk flowCreate = true ∧
    exceptIsOk flowVerify = true ∧
    exceptIsOk c5Update = true ∧
    c5s3.payments.map (fun p => (p.paymentType, p.status, p.orderID)) =
      [("initial", PaymentStatusSuccess, some 1)] ∧
    (findOrder c5s3 1).map Order.status = some OrderStatusPending := by
  decide

/-! ## Claim C6: counterexample -/

/-- C6 counterexample: next_billing_date is not monotonically
    non-decreasing across successive monthly-payment verifications.
    Each verification sets it to `now.AddDate(0, 1, 0)`, and Go's
    calendar addition is not monotone: verifying on January 30, 2025
    yields March 2 (January 30 + 1 month = February 30, normalised),
    while verifying again on February 1 yields March 1 — an earlier
    date, although the second verification happens later. -/
theorem nextBillingDate_not_monotone :
    exceptIsOk c6v1 = true ∧
    exceptIsOk c6v2 = true ∧
    toEpoch tJan30 ≤ toEpoch tFeb01 ∧
    (findSubscription c6s1 1).map Subscription.nextBillingDate = some (addMonths 1 tJan30) ∧
    (findSubscription c6s2 1).map Subscription.nextBillingDate = some (addMonths 1 tFeb01) ∧
    addMonths 1 tFeb01 < addMonths 1 tJan30 := by
  decide

/-! ## Claim C9: counterexample -/

/-- C9 counterexample: the invariant "rating is non-null only when the
    request's status is completed" does not hold over all reachable
    states.  A service request is taken to completed, rated 5 by its
    customer, and an administrator then sets its status back to
    "in_progress" through UpdateServiceRequest, which applies any
    requested status string; the rating survives on a request that is
    no longer completed. -/
theorem rated_request_leaves_completed :
    exceptIsOk c9Approve = true ∧
    exceptIsOk c9CreateSR = true ∧
    exceptIsOk c9Complete = true ∧
    exceptIsOk c9Feedback = true ∧
    exceptIsOk c9Reopen = true ∧
    (findServiceRequest c9s6 1).map (fun r => (r.rating, r.status)) =
      some (some 5, ServiceStatusInProgress) := by
  decide

/-! ## Claim C2 -/

/-- C2: whenever the supplied signature differs from the HMAC digest of
    `gatewayOrderRef|gatewayPaymentRef` under the shared secret,
    VerifyPayment fails with the invalid-signature error before the
    transaction opens: the error return carries no new state, so no
    payment row changes status, the order keeps its status, and no
    notification is inserted. -/
theorem verifyPayment_rejects_bad_signature
    (hmac : String → String → String) (secret : String) (st : AppState)
    (customerID : Nat) (req : PaymentVerificationRequest) (now : DateTime)
    (hsig : req.signature ≠ hmac secret (req.orderID ++ "|" ++ req.paymentID)) :
    verifyPayment hmac secret st RoleCustomer customerID req now =
      .error .invalidSignature := by
  unfold verifyPayment
  have hrole : (RoleCustomer != RoleCustomer) = false := by decide
  rw [hrole]
  simp only [Bool.false_eq_true, if_false]
  have hs : (hmac secret (req.orderID ++ "|" ++ req.paymentID) != req.signature) = true := by
    simp only [bne_iff_ne, ne_eq]
    intro h
    exact hsig h.symm
  rw [hs]
  simp

/-- C2 witness: the tampered request against the demo store. -/
theorem verifyPayment_rejects_bad_signature_witness :
    verifyPayment testHmac "secret" demoState RoleCustomer 7 c2BadReq tJan10 =
      .error .invalidSignature :=
  verifyPayment_rejects_bad_signature testHmac "secret" demoState 7 c2BadReq tJan10
    (by decide)

/-! ## Claim C3 -/

/-- C3: a successful CreateOrder on an active product and active
    franchise inserts one order with status "pending" whose
    total_initial_amount is the product's security deposit plus
    installation fee plus monthly rent, one payment with type
    "initial", status "pending" and that same amount, and one
    order-placed notification for the customer, all in one transaction,
    and responds with the created order and its invoice number. -/
theorem createOrder_spec (st : AppState) (customerID : Nat)
    (req : OrderRequest) (now : DateTime) (product : Product) (franchise : Franchise)
    (hdur : 1 ≤ req.rentalDuration)
    (hp : findProduct st req.productID = some product)
    (hpa : product.isActive = true)
    (hf : findFranchise st req.franchiseID = some franchise)
    (hfa : franchise.isActive = true) :
    ∃ st2 ord inv,
      createOrder st RoleCustomer customerID req now = .ok (st2, ord, inv) ∧
      ord.status = OrderStatusPending ∧
      ord.customerID = customerID ∧
      ord.totalInitialAmount =
        product.securityDeposit + product.installationFee + product.monthlyRent ∧
      inv = generateInvoiceNumber ord.id now ∧
      st2.orders = st.orders ++ [ord] ∧
      (∃ pay, st2.payments = st.payments ++ [pay] ∧
        pay.paymentType = "initial" ∧
        pay.status = PaymentStatusPending ∧
        pay.amount = ord.totalInitialAmount ∧
        pay.orderID = some ord.id) ∧
      (∃ n, st2.notifications = st.notifications ++ [n] ∧
        n.userID = customerID ∧
        n.title = "Order Placed Successfully" ∧
        n.relatedID = some ord.id) := by
  unfold createOrder
  have hrole : (RoleCustomer != RoleCustomer) = false := by decide
  rw [hrole]
  simp only [Bool.false_eq_true, if_false]
  rw [if_neg (by omega : ¬ req.rentalDuration < 1), hp, hf]
  simp only [hpa, hfa, Bool.not_true, Bool.false_eq_true, if_false]
  refine ⟨_, _, _, rfl, rfl, rfl, rfl, rfl, rfl, ⟨_, rfl, rfl, rfl, rfl, rfl⟩,
    ⟨_, rfl, rfl, rfl, rfl⟩⟩

/-- C3 witness: customer 7 ordering the demo product. -/
theorem createOrder_spec_witness :
    ∃ st2 ord inv,
      createOrder demoState RoleCustomer 7 flowOrderReq tJan10 = .ok (st2, ord, inv) ∧
      ord.status = OrderStatusPending ∧
      ord.customerID = 7 ∧
      ord.totalInitialAmount =
        demoProduct.securityDeposit + demoProduct.installationFee + demoProduct.monthlyRent ∧
      inv = generateInvoiceNumber ord.id tJan10 ∧
      st2.orders = demoState.orders ++ [ord] ∧
      (∃ pay, st2.payments = demoState.payments ++ [pay] ∧
        pay.paymentType = "initial" ∧
        pay.status = PaymentStatusPending ∧
        pay.amount = ord.totalInitialAmount ∧
        pay.orderID = some ord.id) ∧
      (∃ n, st2.notifications = demoState.notifications ++ [n] ∧
        n.userID = 7 ∧
        n.title = "Order Placed Successfully" ∧
        n.relatedID = some ord.id) :=
  createOrder_spec demoState 7 flowOrderReq tJan10 demoProduct demoFranchise
    (by decide) (by decide) (by decide) (by decide) (by decide)

/-! ## Claim C4 -/

/-- C4: when an authorised UpdateOrderStatus call moves an order whose
    current status is not "approved" to "approved", the same
    transaction appends exactly one subscription with status "active",
    start_date = now, end_date = start + rental_duration months,
    next_billing_date = start + 1 month, next_maintenance = start + 3
    months and the order's monthly rent, and rewrites the order's
    rental_start_date to the approval time. -/
theorem updateOrderStatus_approval
    (st : AppState) (role : String) (userID orderID : Nat)
    (req : UpdateOrderStatusRequest) (now : DateTime) (order : Order)
    (hfind : findOrder st orderID = some order)
    (hcur : order.status ≠ OrderStatusApproved)
    (hreq : req.status = OrderStatusApproved)
    (hauth : role = RoleAdmin ∨
      (role = RoleFranchiseOwner ∧
        ∃ fr, findFranchise st order.franchiseID = some fr ∧ fr.ownerID = userID)) :
    ∃ st2, updateOrderStatus st role userID orderID req now = .ok st2 ∧
      (∃ sub, st2.subscriptions = st.subscriptions ++ [sub] ∧
        sub.orderID = orderID ∧
        sub.customerID = order.customerID ∧
        sub.status = SubscriptionStatusActive ∧
        sub.startDate = toEpoch now ∧
        sub.endDate = addMonths order.rentalDuration now ∧
        sub.nextBillingDate = addMonths 1 now ∧
        sub.nextMaintenance = addMonths 3 now ∧
        sub.monthlyRent = order.monthlyRent) ∧
      (∃ ord2 ∈ st2.orders, ord2.id = order.id ∧
        ord2.status = OrderStatusApproved ∧
        ord2.rentalStartDate = toEpoch now) := by
  have hfind2 : st.orders.find? (fun o => o.id == orderID) = some order := hfind
  have hid : (order.id == orderID) = true := by
    simpa using List.find?_some hfind2
  have hcur2 : (order.status != OrderStatusApproved) = true := bne_iff_ne.mpr hcur
  unfold updateOrderStatus
  rcases hauth with hA | ⟨hF, fr, hfr, hown⟩
  · subst hA
    rw [show (RoleAdmin != RoleAdmin && RoleAdmin != RoleFranchiseOwner) = false from by decide]
    simp only [Bool.false_eq_true, if_false]
    rw [hfind, hreq]
    rw [show (RoleAdmin == RoleFranchiseOwner) = false from by decide]
    simp only [Bool.false_eq_true, if_false]
    rw [show (OrderStatusApproved == OrderStatusApproved) = true from by decide, hcur2]
    simp only [Bool.and_self, if_true]
    exact ⟨_, rfl, ⟨_, rfl, rfl, rfl, rfl, rfl, rfl, rfl, rfl, rfl⟩,
      ⟨_, mem_map_update (List.mem_of_find?_eq_some hfind2) hid, rfl, rfl, rfl⟩⟩
  · subst hF
    rw [show (RoleFranchiseOwner != RoleAdmin && RoleFranchiseOwner != RoleFranchiseOwner) = false
      from by decide]
    simp only [Bool.false_eq_true, if_false]
    rw [hfind, hreq]
    rw [show (RoleFranchiseOwner == RoleFranchiseOwner) = true from by decide]
    simp only [if_true, hfr]
    rw [show (fr.ownerID != userID) = false from by simp [hown]]
    simp only [Bool.false_eq_true, if_false]
    rw [show (OrderStatusApproved == OrderStatusApproved) = true from by decide, hcur2]
    simp only [Bool.and_self, if_true]
    exact ⟨_, rfl, ⟨_, rfl, rfl, rfl, rfl, rfl, rfl, rfl, rfl, rfl⟩,
      ⟨_, mem_map_update (List.mem_of_find?_eq_some hfind2) hid, rfl, rfl, rfl⟩⟩

/-- C4 witness: an administrator approves the freshly created pending
    order of `flowS1`. -/
theorem updateOrderStatus_approval_witness :
    ∃ st2, updateOrderStatus flowS1 RoleAdmin 99 1
        { status := "approved", serviceAgentID := none, notes := "" } tJan30 = .ok st2 ∧
      (∃ sub, st2.subscriptions = flowS1.subscriptions ++ [sub] ∧
        sub.orderID = 1 ∧
        sub.customerID = flowOrderExpected.customerID ∧
        sub.status = SubscriptionStatusActive ∧
        sub.startDate = toEpoch tJan30 ∧
        sub.endDate = addMonths flowOrderExpected.rentalDuration tJan30 ∧
        sub.nextBillingDate = addMonths 1 tJan30 ∧
        sub.nextMaintenance = addMonths 3 tJan30 ∧
        sub.monthlyRent = flowOrderExpected.monthlyRent) ∧
      (∃ ord2 ∈ st2.orders, ord2.id = flowOrderExpected.id ∧
        ord2.status = OrderStatusApproved ∧
        ord2.rentalStartDate = toEpoch tJan30) :=
  updateOrderStatus_approval flowS1 RoleAdmin 99 1
    { status := "approved", serviceAgentID := none, notes := "" } tJan30 flowOrderExpected
    (by decide) (by decide) (by decide) (Or.inl rfl)

/-! ## Claim C5: the provable part -/

/-- C5 amended: on the initial-payment path, VerifyPayment checks that
    the order belongs to the caller and is still pending, and then, in
    one transaction, marks every initial payment row of the order
    success and advances the order to approved — neither outcome is
    observable without the other.  (The claimed global invariant
    "initial payment success implies order not pending" still fails,
    because UpdateOrderStatus can later push the order's status string
    back to "pending"; see the counterexample.) -/
theorem verifyPayment_initial_atomic
    (hmac : String → String → String) (secret : String) (st : AppState)
    (customerID : Nat) (req : PaymentVerificationRequest) (now : DateTime) (order : Order)
    (hsub : req.subscriptionID = none)
    (hsig : req.signature = hmac secret (req.orderID ++ "|" ++ req.paymentID))
    (hfind : findOrder st req.aquaHomeOrderID = some order)
    (hown : order.customerID = customerID)
    (hpend : order.status = OrderStatusPending) :
    ∃ st2, verifyPayment hmac secret st RoleCustomer customerID req now = .ok st2 ∧
      (∃ ord2 ∈ st2.orders, ord2.id = order.id ∧ ord2.status = OrderStatusApproved) ∧
      (∀ p ∈ st2.payments, p.orderID = some req.aquaHomeOrderID → p.paymentType = "initial" →
        p.status = PaymentStatusSuccess) := by
  have hfind2 : st.orders.find? (fun o => o.id == req.aquaHomeOrderID) = some order := hfind
  have hid : (order.id == req.aquaHomeOrderID) = true := by
    simpa using List.find?_some hfind2
  unfold verifyPayment
  rw [show (RoleCustomer != RoleCustomer) = false from by decide]
  simp only [Bool.false_eq_true, if_false]
  rw [show (hmac secret (req.orderID ++ "|" ++ req.paymentID) != req.signature) = false
    from by simp [hsig]]
  simp only [Bool.false_eq_true, if_false]
  simp only [hsub]
  simp only [hfind]
  rw [show (customerID != order.customerID) = false from by simp [hown]]
  simp only [Bool.false_eq_true, if_false]
  rw [show (order.status != OrderStatusPending) = false from by simp [hpend]]
  simp only [Bool.false_eq_true, if_false]
  refine ⟨_, rfl,
    ⟨_, mem_map_update (List.mem_of_find?_eq_some hfind2) hid, rfl, rfl⟩, ?_⟩
  intro p hp
  rcases List.mem_map.mp hp with ⟨q, hq, hpq⟩
  by_cases hc : (q.orderID == some req.aquaHomeOrderID && q.paymentType == "initial") = true
  · subst hpq
    simp only [if_pos hc]
    intro _ _
    trivial
  · subst hpq
    simp only [if_neg hc]
    intro hoid htype
    exact absurd (by simp [hoid, htype]) hc

/-- C5 witness for the amended statement: the verified payment of the
    demo order. -/
theorem verifyPayment_initial_atomic_witness :
    ∃ st2, verifyPayment testHmac "secret" flowS1 RoleCustomer 7 flowPayReq tJan30 = .ok st2 ∧
      (∃ ord2 ∈ st2.orders, ord2.id = flowOrderExpected.id ∧
        ord2.status = OrderStatusApproved) ∧
      (∀ p ∈ st2.payments, p.orderID = some flowPayReq.aquaHomeOrderID →
        p.paymentType = "initial" → p.status = PaymentStatusSuccess) :=
  verifyPayment_initial_atomic testHmac "secret" flowS1 7 flowPayReq tJan30
    flowOrderExpected (by decide) (by decide) (by decide) (by decide) (by decide)

/-! ## Claim C10 -/

/-- C10: the settlement update of the initial-payment branch selects
    payment rows by order id and payment_type "initial" only, with no
    status condition: every initial payment row of the order — whatever
    its previous status, including "failed", "refunded" or "success" —
    reappears in the committed state with status "success" and the new
    transaction id. -/
theorem verifyPayment_initial_updates_all_initial_rows
    (hmac : String → String → String) (secret : String) (st : AppState)
    (customerID : Nat) (req : PaymentVerificationRequest) (now : DateTime) (order : Order)
    (hsub : req.subscriptionID = none)
    (hsig : req.signature = hmac secret (req.orderID ++ "|" ++ req.paymentID))
    (hfind : findOrder st req.aquaHomeOrderID = some order)
    (hown : order.customerID = customerID)
    (hpend : order.status = OrderStatusPending) :
    ∃ st2, verifyPayment hmac secret st RoleCustomer customerID req now = .ok st2 ∧
      ∀ p ∈ st.payments, p.orderID = some req.aquaHomeOrderID → p.paymentType = "initial" →
        { p with
            status := PaymentStatusSuccess
            transactionID := req.paymentID
            paymentMethod := "razorpay"
            paymentDetails := paymentDetailsJSON req.orderID req.paymentID } ∈ st2.payments := by
  unfold verifyPayment
  rw [show (RoleCustomer != RoleCustomer) = false from by decide]
  simp only [Bool.false_eq_true, if_false]
  rw [show (hmac secret (req.orderID ++ "|" ++ req.paymentID) != req.signature) = false
    from by simp [hsig]]
  simp only [Bool.false_eq_true, if_false]
  simp only [hsub]
  simp only [hfind]
  rw [show (customerID != order.customerID) = false from by simp [hown]]
  simp only [Bool.false_eq_true, if_false]
  rw [show (order.status != OrderStatusPending) = false from by simp [hpend]]
  simp only [Bool.false_eq_true, if_false]
  refine ⟨_, rfl, ?_⟩
  intro p hp hoid htype
  exact mem_map_update hp (by simp [hoid, htype])

/-- C10 witness: a store holding one failed and one pending initial
    payment row for the same pending order; both reappear as success. -/
theorem verifyPayment_initial_updates_all_initial_rows_witness :
    ∃ st2, verifyPayment testHmac "secret" c10state RoleCustomer 7 c10req tJan30 = .ok st2 ∧
      ∀ p ∈ c10state.payments, p.orderID = some c10req.aquaHomeOrderID →
        p.paymentType = "initial" →
        { p with
            status := PaymentStatusSuccess
            transactionID := c10req.paymentID
            paymentMethod := "razorpay"
            paymentDetails := paymentDetailsJSON c10req.orderID c10req.paymentID } ∈ st2.payments :=
  verifyPayment_initial_updates_all_initial_rows testHmac "secret" c10state 7 c10req tJan30
    c10order (by decide) (by decide) (by decide) (by decide) (by decide)

/-! ## Claim C6: the provable part -/

/-- C6 amended: a successful monthly-payment verification on an owned
    subscription marks the pending monthly payment row success (or
    inserts one already marked success when no pending row exists) and
    sets the subscription's next_billing_date to one month after the
    verification time.  (It is set, not advanced from its previous
    value, and since Go calendar month addition is not monotone the
    resulting sequence is not monotonically non-decreasing; see the
    counterexample.) -/
theorem verifyPayment_monthly_spec
    (hmac : String → String → String) (secret : String) (st : AppState)
    (customerID : Nat) (req : PaymentVerificationRequest) (now : DateTime)
    (sid : Nat) (subscription : Subscription)
    (hsid : req.subscriptionID = some sid)
    (hsig : req.signature = hmac secret (req.orderID ++ "|" ++ req.paymentID))
    (hfind : findSubscription st sid = some subscription)
    (hown : subscription.customerID = customerID) :
    ∃ st2, verifyPayment hmac secret st RoleCustomer customerID req now = .ok st2 ∧
      (∃ sub2 ∈ st2.subscriptions, sub2.id = subscription.id ∧
        sub2.nextBillingDate = addMonths 1 now) ∧
      (∃ q ∈ st2.payments, q.subscriptionID = some sid ∧ q.paymentType = "monthly" ∧
        q.status = PaymentStatusSuccess ∧ q.transactionID = req.paymentID) := by
  have hfind2 : st.subscriptions.find? (fun s => s.id == sid) = some subscription := hfind
  have hid : (subscription.id == sid) = true := by
    simpa using List.find?_some hfind2
  unfold verifyPayment
  rw [show (RoleCustomer != RoleCustomer) = false from by decide]
  simp only [Bool.false_eq_true, if_false]
  rw [show (hmac secret (req.orderID ++ "|" ++ req.paymentID) != req.signature) = false
    from by simp [hsig]]
  simp only [Bool.false_eq_true, if_false]
  simp only [hsid]
  simp only [hfind]
  rw [show (customerID != subscription.customerID) = false from by simp [hown]]
  simp only [Bool.false_eq_true, if_false]
  cases hfp : findPendingMonthlyPayment st sid with
  | some payment =>
    have hfp2 : st.payments.find? (fun p =>
        p.subscriptionID == some sid && p.paymentType == "monthly" &&
          p.status == PaymentStatusPending) = some payment := hfp
    have hprops := List.find?_some hfp2
    simp only [Bool.and_eq_true, beq_iff_eq] at hprops
    simp only [hfp]
    refine ⟨_, rfl,
      ⟨_, mem_map_update (List.mem_of_find?_eq_some hfind2) hid, rfl, rfl⟩, ?_⟩
    refine ⟨_, mem_map_update (List.mem_of_find?_eq_some hfp2) (by simp), ?_, ?_, rfl, rfl⟩
    · exact hprops.1.1
    · exact hprops.1.2
  | none =>
    simp only [hfp]
    refine ⟨_, rfl,
      ⟨_, mem_map_update (List.mem_of_find?_eq_some hfind2) hid, rfl, rfl⟩, ?_⟩
    exact ⟨_, List.mem_append.mpr (Or.inr (List.mem_singleton_self _)), rfl, rfl, rfl, rfl⟩

/-- C6 witness for the amended statement: the first monthly
    verification of the demo subscription. -/
theorem verifyPayment_monthly_spec_witness :
    ∃ st2, verifyPayment testHmac "secret" c6base RoleCustomer 7 c6req1 tJan30 = .ok st2 ∧
      (∃ sub2 ∈ st2.subscriptions, sub2.id = c6sub.id ∧
        sub2.nextBillingDate = addMonths 1 tJan30) ∧
      (∃ q ∈ st2.payments, q.subscriptionID = some 1 ∧ q.paymentType = "monthly" ∧
        q.status = PaymentStatusSuccess ∧ q.transactionID = c6req1.paymentID) :=
  verifyPayment_monthly_spec testHmac "secret" c6base 7 c6req1 tJan30 1 c6sub
    (by decide) (by decide) (by decide) (by decide)

/-! ## Claim C7 -/

/-- C7: for an admin or owning franchise owner, pausing a subscription
    without a pause end date fails (the error return leaves the state
    untouched); pausing with a pause end date extends end_date by
    exactly `pauseEndDate - now` and sets status "paused"; a subsequent
    resume to "active" with no further mutation flips the status back
    and leaves end_date increased by exactly that single pause
    interval. -/
theorem updateSubscription_pause_resume
    (st : AppState) (role : String) (userID sid : Nat)
    (subscription : Subscription) (ped now now2 : DateTime)
    (hauth : role = RoleAdmin ∨ role = RoleFranchiseOwner)
    (hfind : findSubscriptionFor st role userID sid = some subscription) :
    (updateSubscription st role userID sid
        { status := SubscriptionStatusPaused, autoRenew := none, pauseEndDate := none } now =
      .error (.validationError "Pause end date is required when pausing a subscription")) ∧
    ∃ st2, updateSubscription st role userID sid
        { status := SubscriptionStatusPaused, autoRenew := none, pauseEndDate := some ped } now =
        .ok st2 ∧
      (∃ sub2 ∈ st2.subscriptions, sub2.id = subscription.id ∧
        sub2.status = SubscriptionStatusPaused ∧
        sub2.endDate = subscription.endDate + (toEpoch ped - toEpoch now)) ∧
      ∃ st3, updateSubscription st2 role userID sid
          { status := SubscriptionStatusActive, autoRenew := none, pauseEndDate := none } now2 =
          .ok st3 ∧
        ∃ sub3 ∈ st3.subscriptions, sub3.id = subscription.id ∧
          sub3.status = SubscriptionStatusActive ∧
          sub3.endDate = subscription.endDate + (toEpoch ped - toEpoch now) := by
  rcases hauth with h | h
  · subst h
    have hfind2 : st.subscriptions.find? (fun s => s.id == sid) = some subscription := hfind
    have hmem := List.mem_of_find?_eq_some hfind2
    have hid : (subscription.id == sid) = true := by
      simpa using List.find?_some hfind2
    have hidEq : subscription.id = sid := by simpa using hid
    have herr : updateSubscription st RoleAdmin userID sid
        { status := SubscriptionStatusPaused, autoRenew := none, pauseEndDate := none } now =
        .error (.validationError "Pause end date is required when pausing a subscription") := by
      unfold updateSubscription
      simp only [hfind]
      rfl
    have hpause : updateSubscription st RoleAdmin userID sid
        { status := SubscriptionStatusPaused, autoRenew := none, pauseEndDate := some ped } now =
        .ok (subscriptionUpdatedState st subscription
          { subscription with
              status := SubscriptionStatusPaused
              endDate := subscription.endDate + (toEpoch ped - toEpoch now) }
          SubscriptionStatusPaused) := by
      unfold updateSubscription
      simp only [hfind]
      rfl
    have hstep : findSubscriptionFor
        (subscriptionUpdatedState st subscription
          { subscription with
              status := SubscriptionStatusPaused
              endDate := subscription.endDate + (toEpoch ped - toEpoch now) }
          SubscriptionStatusPaused) RoleAdmin userID sid =
        some { subscription with
                 status := SubscriptionStatusPaused
                 endDate := subscription.endDate + (toEpoch ped - toEpoch now) } := by
      show (st.subscriptions.map (fun s =>
          if s.id == subscription.id then
            { subscription with
                status := SubscriptionStatusPaused
                endDate := subscription.endDate + (toEpoch ped - toEpoch now) }
          else s)).find? (fun s => s.id == sid) = _
      exact find?_map_replace_sub (fun s => s.id == sid)
        (fun s => s.id == subscription.id)
        { subscription with
            status := SubscriptionStatusPaused
            endDate := subscription.endDate + (toEpoch ped - toEpoch now) }
        st.subscriptions subscription hfind2
        (fun a ha => by rw [hidEq]; exact ha) hid
    have hresume : updateSubscription
        (subscriptionUpdatedState st subscription
          { subscription with
              status := SubscriptionStatusPaused
              endDate := subscription.endDate + (toEpoch ped - toEpoch now) }
          SubscriptionStatusPaused) RoleAdmin userID sid
        { status := SubscriptionStatusActive, autoRenew := none, pauseEndDate := none } now2 =
        .ok (subscriptionUpdatedState
          (subscriptionUpdatedState st subscription
            { subscription with
                status := SubscriptionStatusPaused
                endDate := subscription.endDate + (toEpoch ped - toEpoch now) }
            SubscriptionStatusPaused)
          { subscription with
              status := SubscriptionStatusPaused
              endDate := subscription.endDate + (toEpoch ped - toEpoch now) }
          { subscription with
              status := SubscriptionStatusActive
              endDate := subscription.endDate + (toEpoch ped - toEpoch now) }
          SubscriptionStatusActive) := by
      unfold updateSubscription
      simp only [hstep]
      rfl
    refine ⟨herr, _, hpause, ⟨_, mem_map_update hmem (by simp), rfl, rfl, rfl⟩,
      _, hresume,
      ⟨{ subscription with
           status := SubscriptionStatusActive
           endDate := subscription.endDate + (toEpoch ped - toEpoch now) },
        ?_, rfl, rfl, rfl⟩⟩
    exact mem_map_update (mem_map_update hmem (by simp)) (by simp)
  · subst h
    have hfind2 : st.subscriptions.find? (fun s =>
        s.id == sid && st.franchises.any (fun f => f.id == s.franchiseID && f.ownerID == userID)) =
        some subscription := hfind
    have hmem := List.mem_of_find?_eq_some hfind2
    have hpred := List.find?_some hfind2
    have hid : (subscription.id == sid) = true := by
      have h2 := hpred
      simp only [Bool.and_eq_true] at h2
      exact h2.1
    have hidEq : subscription.id = sid := by simpa using hid
    have herr : updateSubscription st RoleFranchiseOwner userID sid
        { status := SubscriptionStatusPaused, autoRenew := none, pauseEndDate := none } now =
        .error (.validationError "Pause end date is required when pausing a subscription") := by
      unfold updateSubscription
      simp only [hfind]
      rfl
    have hpause : updateSubscription st RoleFranchiseOwner userID sid
        { status := SubscriptionStatusPaused, autoRenew := none, pauseEndDate := some ped } now =
        .ok (subscriptionUpdatedState st subscription
          { subscription with
              status := SubscriptionStatusPaused
              endDate := subscription.endDate + (toEpoch ped - toEpoch now) }
          SubscriptionStatusPaused) := by
      unfold updateSubscription
      simp only [hfind]
      rfl
    have hstep : findSubscriptionFor
        (subscriptionUpdatedState st subscription
          { subscription with
              status := SubscriptionStatusPaused
              endDate := subscription.endDate + (toEpoch ped - toEpoch now) }
          SubscriptionStatusPaused) RoleFranchiseOwner userID sid =
        some { subscription with
                 status := SubscriptionStatusPaused
                 endDate := subscription.endDate + (toEpoch ped - toEpoch now) } := by
      show (st.subscriptions.map (fun s =>
          if s.id == subscription.id then
            { subscription with
                status := SubscriptionStatusPaused
                endDate := subscription.endDate + (toEpoch ped - toEpoch now) }
          else s)).find? (fun s =>
            s.id == sid &&
              st.franchises.any (fun f => f.id == s.franchiseID && f.ownerID == userID)) = _
      exact find?_map_replace_sub
        (fun s => s.id == sid &&
          st.franchises.any (fun f => f.id == s.franchiseID && f.ownerID == userID))
        (fun s => s.id == subscription.id)
        { subscription with
            status := SubscriptionStatusPaused
            endDate := subscription.endDate + (toEpoch ped - toEpoch now) }
        st.subscriptions subscription hfind2
        (fun a ha => by
          rw [hidEq]
          simp only [Bool.and_eq_true] at ha
          exact ha.1) hpred
    have hresume : updateSubscription
        (subscriptionUpdatedState st subscription
          { subscription with
              status := SubscriptionStatusPaused
              endDate := subscription.endDate + (toEpoch ped - toEpoch now) }
          SubscriptionStatusPaused) RoleFranchiseOwner userID sid
        { status := SubscriptionStatusActive, autoRenew := none, pauseEndDate := none } now2 =
        .ok (subscriptionUpdatedState
          (subscriptionUpdatedState st subscription
            { subscription with
                status := SubscriptionStatusPaused
                endDate := subscription.endDate + (toEpoch ped - toEpoch now) }
            SubscriptionStatusPaused)
          { subscription with
              status := SubscriptionStatusPaused
              endDate := subscription.endDate + (toEpoch ped - toEpoch now) }
          { subscription with
              status := SubscriptionStatusActive
              endDate := subscription.endDate + (toEpoch ped - toEpoch now) }
          SubscriptionStatusActive) := by
      unfold updateSubscription
      simp only [hstep]
      rfl
    refine ⟨herr, _, hpause, ⟨_, mem_map_update hmem (by simp), rfl, rfl, rfl⟩,
      _, hresume,
      ⟨{ subscription with
           status := SubscriptionStatusActive
           endDate := subscription.endDate + (toEpoch ped - toEpoch now) },
        ?_, rfl, rfl, rfl⟩⟩
    exact mem_map_update (mem_map_update hmem (by simp)) (by simp)

/-- C7 witness: an administrator pauses the demo subscription on
    January 30 until March 1 and later resumes it. -/
theorem updateSubscription_pause_resume_witness :
    (updateSubscription c6base RoleAdmin 99 1
        { status := SubscriptionStatusPaused, autoRenew := none, pauseEndDate := none } tJan30 =
      .error (.validationError "Pause end date is required when pausing a subscription")) ∧
    ∃ st2, updateSubscription c6base RoleAdmin 99 1
        { status := SubscriptionStatusPaused, autoRenew := none,
          pauseEndDate := some ⟨2025, 3, 1, 0⟩ } tJan30 = .ok st2 ∧
      (∃ sub2 ∈ st2.subscriptions, sub2.id = c6sub.id ∧
        sub2.status = SubscriptionStatusPaused ∧
        sub2.endDate = c6sub.endDate + (toEpoch ⟨2025, 3, 1, 0⟩ - toEpoch tJan30)) ∧
      ∃ st3, updateSubscription st2 RoleAdmin 99 1
          { status := SubscriptionStatusActive, autoRenew := none, pauseEndDate := none } tFeb01 =
          .ok st3 ∧
        ∃ sub3 ∈ st3.subscriptions, sub3.id = c6sub.id ∧
          sub3.status = SubscriptionStatusActive ∧
          sub3.endDate = c6sub.endDate + (toEpoch ⟨2025, 3, 1, 0⟩ - toEpoch tJan30) :=
  updateSubscription_pause_resume c6base RoleAdmin 99 1 c6sub ⟨2025, 3, 1, 0⟩ tJan30 tFeb01
    (Or.inl rfl) (by decide)

/-! ## Claim C8 -/

/-- C8: a customer's CancelServiceRequest on a request they own
    succeeds exactly when the current status is pending, assigned or
    scheduled — then the status flips to cancelled, the customer is
    notified and, when an agent is assigned, so is the agent; for any
    other current status (in particular "in_progress") the call fails
    with the invalid-state error and, the error return carrying no
    state, the request is unchanged. -/
theorem cancelServiceRequest_spec
    (st : AppState) (userID requestID : Nat) (sr : ServiceRequest)
    (hfind : st.serviceRequests.find? (fun r => r.id == requestID && r.customerID == userID) =
      some sr) :
    (sr.status ≠ ServiceStatusPending → sr.status ≠ ServiceStatusAssigned →
      sr.status ≠ ServiceStatusScheduled →
      cancelServiceRequest st userID requestID =
        .error (.invalidState "Service request cannot be cancelled in its current state")) ∧
    ((sr.status = ServiceStatusPending ∨ sr.status = ServiceStatusAssigned ∨
        sr.status = ServiceStatusScheduled) →
      ∃ st2, cancelServiceRequest st userID requestID = .ok st2 ∧
        (∃ sr2 ∈ st2.serviceRequests, sr2.id = sr.id ∧ sr2.status = ServiceStatusCancelled) ∧
        (∃ n ∈ st2.notifications, n.userID = userID ∧
          n.title = "Service Request Cancelled" ∧ n.relatedID = some sr.id) ∧
        (∀ agentID, sr.serviceAgentID = some agentID →
          ∃ n ∈ st2.notifications, n.userID = agentID ∧
            n.title = "Service Request Cancelled")) := by
  unfold cancelServiceRequest
  simp only [hfind]
  constructor
  · intro h1 h2 h3
    have hcond : (sr.status != ServiceStatusPending && sr.status != ServiceStatusAssigned &&
        sr.status != ServiceStatusScheduled) = true := by
      simp [h1, h2, h3]
    rw [if_pos hcond]
  · intro hs
    have hcond : ¬ (sr.status != ServiceStatusPending && sr.status != ServiceStatusAssigned &&
        sr.status != ServiceStatusScheduled) = true := by
      rcases hs with h | h | h <;> simp [h]
    rw [if_neg hcond]
    refine ⟨_, rfl,
      ⟨_, mem_map_update (List.mem_of_find?_eq_some hfind) (by simp), rfl, rfl⟩,
      ⟨{ id := st.nextNotificationId, userID := userID,
         title := "Service Request Cancelled",
         message := "Your service request has been cancelled.",
         ntype := "service_request", relatedID := some sr.id,
         relatedType := "service_request", isRead := false },
        by simp, rfl, rfl, rfl⟩, ?_⟩
    intro agentID hag
    simp only [hag]
    exact ⟨{ id := st.nextNotificationId + 1, userID := agentID,
             title := "Service Request Cancelled",
             message := "A service request assigned to you has been cancelled by the customer.",
             ntype := "service_request", relatedID := some sr.id,
             relatedType := "service_request", isRead := false },
      by simp, rfl, rfl⟩

/-- C8 witness: customer 7 cancels their assigned request (agent
    notified) and fails to cancel the one already in progress. -/
theorem cancelServiceRequest_spec_witness :
    (∃ st2, cancelServiceRequest c8state 7 1 = .ok st2 ∧
      (∃ sr2 ∈ st2.serviceRequests, sr2.id = c8srAssigned.id ∧
        sr2.status = ServiceStatusCancelled) ∧
      (∃ n ∈ st2.notifications, n.userID = 7 ∧
        n.title = "Service Request Cancelled" ∧ n.relatedID = some c8srAssigned.id) ∧
      (∀ agentID, c8srAssigned.serviceAgentID = some agentID →
        ∃ n ∈ st2.notifications, n.userID = agentID ∧
          n.title = "Service Request Cancelled")) ∧
    cancelServiceRequest c8state 7 2 =
      .error (.invalidState "Service request cannot be cancelled in its current state") := by
  constructor
  · exact (cancelServiceRequest_spec c8state 7 1 c8srAssigned (by decide)).2
      (Or.inr (Or.inl rfl))
  · exact (cancelServiceRequest_spec c8state 7 2 c8srInProgress (by decide)).1
      (by decide) (by decide) (by decide)

/-! ## Claim C9: the provable part -/

/-- C9 amended: SubmitServiceFeedback writes a rating only after its
    lookup has verified ownership and status "completed": every
    successful call targeted a completed request of the caller, and the
    committed state holds that request with the rating written and the
    status still "completed".  (No other operation writes a rating, but
    UpdateServiceRequest can later move the rated request out of
    "completed", so the full invariant fails; see the
    counterexample.) -/
theorem submitServiceFeedback_requires_completed
    (st : AppState) (userID requestID : Nat) (rating : Int) (feedback : String)
    (st2 : AppState)
    (h : submitServiceFeedback st userID requestID rating feedback = .ok st2) :
    ∃ sr, st.serviceRequests.find?
        (fun r => r.id == requestID && r.customerID == userID &&
          r.status == ServiceStatusCompleted) = some sr ∧
      sr.status = ServiceStatusCompleted ∧
      ∃ sr2 ∈ st2.serviceRequests, sr2.id = sr.id ∧ sr2.rating = some rating ∧
        sr2.status = ServiceStatusCompleted := by
  unfold submitServiceFeedback at h
  by_cases hb : (rating < 1 || rating > 5 || feedback == "") = true
  · rw [if_pos hb] at h
    exact absurd h (by simp)
  · rw [if_neg hb] at h
    cases hf : st.serviceRequests.find? (fun r =>
        r.id == requestID && r.customerID == userID &&
          r.status == ServiceStatusCompleted) with
    | none =>
      rw [hf] at h
      exact absurd h (by simp)
    | some sr =>
      simp only [hf] at h
      injection h with h2
      subst h2
      have hprops := List.find?_some hf
      simp only [Bool.and_eq_true, beq_iff_eq] at hprops
      exact ⟨sr, rfl, hprops.2, _,
        mem_map_update (List.mem_of_find?_eq_some hf) (by simp), rfl, rfl, hprops.2⟩

/-- C9 witness for the amended statement: the successful feedback call
    of the service-request scenario. -/
theorem submitServiceFeedback_requires_completed_witness :
    ∃ sr, c9s4.serviceRequests.find?
        (fun r => r.id == 1 && r.customerID == 7 &&
          r.status == ServiceStatusCompleted) = some sr ∧
      sr.status = ServiceStatusCompleted ∧
      ∃ sr2 ∈ c9s5.serviceRequests, sr2.id = sr.id ∧ sr2.rating = some 5 ∧
        sr2.status = ServiceStatusCompleted :=
  submitServiceFeedback_requires_completed c9s4 7 1 5 "great service" c9s5 (by rfl)

end AquaHome
